import Mathlib

/-!
Verification of the Linux open-file path reconstruction utilities
(`LinuxUtilities` in `volatility/framework/symbols/linux/__init__.py`).

The code walks two pointer graphs over an untrusted memory snapshot: the
directory-entry (dentry) parent tree and the mount tree.  We embed the
snapshot as an arena of address-keyed lookup functions (addresses are `Nat`,
equality of typed references is address equality, as the external typed-object
layer specifies).  A field read that may fail with the framework's
`InvalidAddressException` is modelled as an `Option`-valued lookup; an
exception escaping a function is modelled with `Except`.  The Python `while`
loop of `_do_get_path` is embedded with an explicit fuel parameter; running
out of fuel (`PyExc.fuelOut`) marks divergence of the unbounded source loop.
-/

namespace Volatility

/-- Exceptional outcomes of the embedded Python code:
`invalidAddress` models `exceptions.InvalidAddressException` raised by a
field read through the typed-memory layer, `indexError` models a Python
`IndexError` (out-of-range subscript), and `fuelOut` is the marker used by
the fuel-bounded embedding of the unbounded `while` loop. -/
inductive PyExc where
  | invalidAddress
  | indexError
  | fuelOut
deriving DecidableEq, Repr

/-- Python `s.strip(c)`: remove every leading and trailing occurrence of the
character `c` (used as `dname.strip('/')` in `_do_get_path`). -/
def pyStrip (str : String) (c : Char) : String :=
  String.mk (((str.data.dropWhile (fun x => x == c)).reverse.dropWhile
    (fun x => x == c)).reverse)

/-- Python `s[:-1]`: the string without its final character (empty stays
empty), as used in `ret_val = ret_val[:-1] + ":[{0}]".format(ino)`. -/
def pyDropLast (str : String) : String :=
  String.mk str.data.dropLast

/-- Python `"{0:x}".format(n)`: lowercase hexadecimal rendering of `n`. -/
def natToHex (n : Nat) : String :=
  String.mk (Nat.toDigits 16 n)

/-- Python `s.startswith(pre)` (structurally recursive so that concrete
instances evaluate inside the kernel). -/
def strStartsWith (s pre : String) : Bool :=
  pre.data.isPrefixOf s.data

/-- Python `s.find(c) != -1` for a single character `c`, i.e. membership of
the character in the string. -/
def strContains (s : String) (c : Char) : Bool :=
  s.data.contains c

/-- Helper for `splitOnChar`: accumulates the current piece (reversed). -/
def splitOnCharAux (c : Char) : List Char → List Char → List String
  | [], acc => [String.mk acc.reverse]
  | x :: xs, acc =>
    if x = c then String.mk acc.reverse :: splitOnCharAux c xs []
    else splitOnCharAux c xs (x :: acc)

/-- Python `s.split(sep)` for the one-character separator `"!"` used with
`constants.BANG`: splits at every occurrence, keeping empty pieces, and
yields `[s]` when the separator does not occur. -/
def splitOnChar (s : String) (c : Char) : List String :=
  splitOnCharAux c s.data []

/-- The read-only memory snapshot seen through the typed-object layer.
Addresses of dentries, mounts, operation tables and files are `Nat`s; `0` is
the null pointer.  Fields returning `Option` model reads that can raise
`InvalidAddressException` (`none` = the read raises).

The accessor methods of the `extensions` module (`dentry.path()`,
`vfsmnt.get_mnt_root/parent/mountpoint`, `filp.get_dentry/get_vfsmnt`,
`task.fs.get_root_dentry/get_root_mnt`) are not part of the supplied source;
they are modelled from the spec's external-interface section as plain
snapshot lookups.  In particular `dName` is the result of `dentry.path()`,
where a failed name read is surfaced as the empty string (the walk treats an
empty name as the corruption signal). -/
structure Snapshot where
  /-- Models `dentry.path()` — the name component of a dentry ("" on failure). -/
  dName : Nat → String
  /-- Models `dentry.d_parent` — parent dentry address. -/
  dParent : Nat → Nat
  /-- Models `dentry.d_inode.i_ino` — inode number behind a dentry; `none` means
  the read raises `InvalidAddressException`. -/
  dInode : Nat → Option Nat
  /-- Models `dentry.d_op` — operations-table pointer value; `none` = read raises. -/
  dOp : Nat → Option Nat
  /-- Models `d_op.d_dname` — display-name function pointer read through the
  operations table at the given address; `none` = read raises. -/
  dDname : Nat → Option Nat
  /-- Models `dentry.d_op.has_member("d_dname")` — schema introspection. -/
  hasMemberDDname : Bool
  /-- Models `vfsmnt.get_mnt_root()` — root dentry of a mount. -/
  mntRoot : Nat → Nat
  /-- Models `vfsmnt.get_mnt_parent()` — parent mount (self at the global root). -/
  mntParent : Nat → Nat
  /-- Models `vfsmnt.get_mnt_mountpoint()` — mountpoint dentry in the parent. -/
  mntMountpoint : Nat → Nat
  /-- Models `filp.get_dentry()` — dentry of an open file; `none` = read raises. -/
  fileDentry : Nat → Option Nat
  /-- Models `filp.get_vfsmnt()` — mount of an open file. -/
  fileMnt : Nat → Nat
  /-- Models `sym_addr.vol.type_name` — type-name metadata of the `d_dname`
  pointer object, a `table!type` composite parsed with `split("!")`. -/
  dDnameTypeName : String
  /-- Models `context.symbol_space.get_symbols_by_location(addr, table_name)` —
  names (in `table!symbol` form) of the symbols located at an address. -/
  getSymbolsByLocation : Nat → Option String → List String
  /-- Models `objects.utility.array_of_pointers(fd_table, ...)` — the pointer
  stored in slot `i` of the descriptor array at a base address. -/
  slotAt : Nat → Nat → Nat

/-- The fields of `task_struct` consumed by the utilities: the process root
(`task.fs.get_root_dentry()` / `task.fs.get_root_mnt()`) and its open-file
table (`task.files.get_fds()` / `task.files.get_max_fds()`). -/
structure TaskStruct where
  rootDentry : Nat
  rootMnt : Nat
  fdTable : Nat
  maxFds : Nat

/-- The `while dentry != rdentry or vfsmnt != rmnt` loop of
`LinuxUtilities._do_get_path`, with explicit fuel.  Returns the collected
`ret_path` segments together with the value of the `dentry` variable at loop
exit (the post-loop code reads `dentry.d_inode` from it). -/
def walkLoop (s : Snapshot) (rdentry rmnt : Nat) :
    Nat → Nat → Nat → List String → Except PyExc (List String × Nat)
  | 0, _, _, _ => .error .fuelOut
  | fuel + 1, dentry, vfsmnt, ret_path =>
    if dentry = rdentry ∧ vfsmnt = rmnt then .ok (ret_path, dentry)
    else
      let dname := s.dName dentry
      if dname = "" then .ok (ret_path, dentry)
      else
        let ret_path1 := pyStrip dname '/' :: ret_path
        if dentry = s.mntRoot vfsmnt ∨ dentry = s.dParent dentry then
          if s.mntParent vfsmnt = vfsmnt then .ok (ret_path1, dentry)
          else
            walkLoop s rdentry rmnt fuel (s.mntMountpoint vfsmnt)
              (s.mntParent vfsmnt) ret_path1
        else
          walkLoop s rdentry rmnt fuel (s.dParent dentry) vfsmnt ret_path1

/-- The post-loop section of `LinuxUtilities._do_get_path` (lines 63-87):
empty collection yields `""`; otherwise the non-empty segments are joined
with `/`; `socket:`/`pipe:` prefixed values without a `]` get the last
character dropped and `:[ino]` appended (inode read failure yields 0),
values with a `]` have every `/` removed, and anything other than
`"inotify"` is prefixed with `/`. -/
def postProcess (s : Snapshot) (ret_path : List String) (dentry : Nat) :
    String :=
  if ret_path = [] then ""
  else
    let ret_val := String.intercalate "/" (ret_path.filter (fun p => p ≠ ""))
    if strStartsWith ret_val "socket:" ∨ strStartsWith ret_val "pipe:" then
      if ¬ strContains ret_val ']' then
        let ino := (s.dInode dentry).getD 0
        pyDropLast ret_val ++ ":[" ++ toString ino ++ "]"
      else
        String.mk (ret_val.data.filter (fun c => c ≠ '/'))
    else if ret_val = "inotify" then ret_val
    else "/" ++ ret_val

/-- Models `LinuxUtilities._do_get_path(rdentry, rmnt, dentry, vfsmnt)`. -/
def _do_get_path (s : Snapshot) (fuel rdentry rmnt dentry vfsmnt : Nat) :
    Except PyExc String :=
  (walkLoop s rdentry rmnt fuel dentry vfsmnt []).map
    (fun r => postProcess s r.1 r.2)

/-- Models `LinuxUtilities._get_path_file(task, filp)`: reads the process root and
the file's dentry/mount and delegates to `_do_get_path`.  None of these
reads is guarded here, so a failing `get_dentry` read propagates. -/
def _get_path_file (s : Snapshot) (fuel : Nat) (task : TaskStruct)
    (filp : Nat) : Except PyExc String :=
  match s.fileDentry filp with
  | none => .error .invalidAddress
  | some dentry =>
    _do_get_path s fuel task.rootDentry task.rootMnt dentry (s.fileMnt filp)

/-- Models `LinuxUtilities._get_new_sock_pipe_path(context, task, filp)`: resolves
the `d_dname` function pointer to a symbol name and maps known display
functions to a category prefix, formatting the result as
`prefix:[inode]`; an ambiguous or unknown location yields the
`<invalid d_dname pointer> addr` placeholder.  The final
`dentry.d_inode.i_ino` read (line 131) is not guarded. -/
def _get_new_sock_pipe_path (s : Snapshot) (fuel : Nat) (task : TaskStruct)
    (filp : Nat) : Except PyExc String :=
  match s.fileDentry filp with
  | none => .error .invalidAddress
  | some dentry =>
    match s.dOp dentry with
    | none => .error .invalidAddress
    | some d_op =>
      match s.dDname d_op with
      | none => .error .invalidAddress
      | some sym_addr =>
        let symbol_table_arr := splitOnChar s.dDnameTypeName '!'
        let symbol_table :=
          if symbol_table_arr.length = 2 then symbol_table_arr.head? else none
        let symbs := s.getSymbolsByLocation sym_addr symbol_table
        if symbs.length = 1 then
          match (splitOnChar (symbs.headD "") '!').get? 1 with
          | none => .error .indexError
          | some sym =>
            let pre_name : Except PyExc String :=
              if sym = "sockfs_dname" then .ok "socket"
              else if sym = "anon_inodefs_dname" then .ok "anon_inode"
              else if sym = "pipefs_dname" then .ok "pipe"
              else if sym = "simple_dname" then _get_path_file s fuel task filp
              else .ok ("<unsupported d_op symbol: " ++ sym ++ ">")
            match pre_name with
            | .error e => .error e
            | .ok pre =>
              match s.dInode dentry with
              | none => .error .invalidAddress
              | some ino => .ok (pre ++ ":[" ++ toString ino ++ "]")
        else
          .ok ("<invalid d_dname pointer> " ++ natToHex sym_addr)

/-- Models `LinuxUtilities.path_for_file(context, task, filp)`: the Path Facade.
Only the `get_dentry` read and the `d_op`/`d_dname` validity probe are
wrapped in `try/except InvalidAddressException`; the delegated calls on
lines 161-163 are not. -/
def path_for_file (s : Snapshot) (fuel : Nat) (task : TaskStruct)
    (filp : Nat) : Except PyExc String :=
  match s.fileDentry filp with
  | none => .ok ""
  | some dentry =>
    if dentry = 0 then .ok ""
    else
      let dname_is_valid :=
        match s.dOp dentry with
        | none => false
        | some d_op =>
          if d_op ≠ 0 then
            if s.hasMemberDDname then
              match s.dDname d_op with
              | none => false
              | some dd => dd ≠ 0
            else false
          else false
      if dname_is_valid then _get_new_sock_pipe_path s fuel task filp
      else _get_path_file s fuel task filp

/-- The generator body of `files_descriptors_for_process`:
`for (fd_num, filp) in enumerate(fds): if filp != 0: yield (fd_num, filp,
path_for_file(...))`, collected into a list.  An exception escaping
`path_for_file` aborts the enumeration. -/
def yieldLoop (s : Snapshot) (fuel : Nat) (task : TaskStruct) :
    List (Nat × Nat) → Except PyExc (List (Nat × Nat × String))
  | [] => .ok []
  | (fd_num, filp) :: rest =>
    if filp ≠ 0 then
      match path_for_file s fuel task filp with
      | .error e => .error e
      | .ok full_path =>
        (yieldLoop s fuel task rest).map
          (fun l => (fd_num, filp, full_path) :: l)
    else yieldLoop s fuel task rest

/-- Models `LinuxUtilities.files_descriptors_for_process(context, symbol_table,
task)`: empty for a null table address or a declared maximum above 500000,
otherwise the enumeration of the materialized pointer array. -/
def files_descriptors_for_process (s : Snapshot) (fuel : Nat)
    (task : TaskStruct) : Except PyExc (List (Nat × Nat × String)) :=
  if task.fdTable = 0 then .ok []
  else if 500000 < task.maxFds then .ok []
  else
    let fds := (List.range task.maxFds).map (s.slotAt task.fdTable)
    yieldLoop s fuel task fds.enum

/-- A straight ancestor chain below the process root, listed leaf-first: the
walk starting at `d` visits exactly the dentries in `ds`, each with a
non-empty name, never meeting the root dentry, a mount root, or a
self-parent before the chain ends at `rdentry`.  This is the "well-formed
tree of depth N with no mount crossing" shape of the spec's functional
claim about `_do_get_path`. -/
def straightChain (s : Snapshot) (rdentry rmnt : Nat) : Nat → List Nat → Prop
  | d, [] => d = rdentry
  | d, e :: rest =>
    d = e ∧ d ≠ rdentry ∧ s.dName d ≠ "" ∧ d ≠ s.mntRoot rmnt ∧
    d ≠ s.dParent d ∧ straightChain s rdentry rmnt (s.dParent d) rest

instance straightChainDec (s : Snapshot) (rdentry rmnt : Nat) :
    (d : Nat) → (ds : List Nat) → Decidable (straightChain s rdentry rmnt d ds)
  | d, [] => inferInstanceAs (Decidable (d = rdentry))
  | d, e :: rest =>
    have _ : Decidable (straightChain s rdentry rmnt (s.dParent d) rest) :=
      straightChainDec s rdentry rmnt (s.dParent d) rest
    inferInstanceAs (Decidable
      (d = e ∧ d ≠ rdentry ∧ s.dName d ≠ "" ∧ d ≠ s.mntRoot rmnt ∧
       d ≠ s.dParent d ∧ straightChain s rdentry rmnt (s.dParent d) rest))

/-- An inert snapshot used as the base of the concrete test snapshots: every
name is empty, every dentry is its own parent, every mount is its own
parent, and every fallible read raises. -/
def baseSnap : Snapshot where
  dName := fun _ => ""
  dParent := fun n => n
  dInode := fun _ => none
  dOp := fun _ => none
  dDname := fun _ => none
  hasMemberDDname := true
  mntRoot := fun _ => 0
  mntParent := fun m => m
  mntMountpoint := fun m => m
  fileDentry := fun _ => none
  fileMnt := fun _ => 0
  dDnameTypeName := "t!p"
  getSymbolsByLocation := fun _ _ => []
  slotAt := fun _ _ => 0

/-- A task whose root pair and descriptor table are irrelevant to the call
under test. -/
def task0 : TaskStruct := ⟨1, 1, 0, 0⟩

/-- Snapshot for C1: file 50 has a valid dentry 2 whose `d_op.d_dname`
pointer (40) resolves to exactly the symbol `sockfs_dname`, but every
`d_inode` read raises `InvalidAddressException`. -/
def sC1 : Snapshot :=
  { baseSnap with
    fileDentry := fun f => if f = 50 then some 2 else none
    dOp := fun n => if n = 2 then some 30 else none
    dDname := fun n => if n = 30 then some 40 else none
    getSymbolsByLocation := fun a _ =>
      if a = 40 then ["t!sockfs_dname"] else [] }

/-- Snapshot for C2: an adversarial mount cycle.  Dentry 2 (named `x`) is
the mount root of both mounts 2 and 3, which are each other's parent, and
every mountpoint is dentry 2 again, so the walk toward root pair (1, 1)
alternates between states (2, 2) and (2, 3) forever. -/
def sC2 : Snapshot :=
  { baseSnap with
    dName := fun n => if n = 2 then "x" else ""
    mntRoot := fun _ => 2
    mntParent := fun m => if m = 2 then 3 else if m = 3 then 2 else m
    mntMountpoint := fun _ => 2 }

/-- Snapshot for the C3 counterexample: a depth-1 chain below root dentry 1
whose single dentry 2 carries the non-empty name `/inotify`. -/
def sC3 : Snapshot :=
  { baseSnap with
    dName := fun n => if n = 2 then "/inotify" else ""
    dParent := fun n => if n = 2 then 1 else n }

/-- Snapshot for the C3 witness: the chain 2 → 3 → root 1 with names `a`
and `b`. -/
def sC3w : Snapshot :=
  { baseSnap with
    dName := fun n => if n = 2 then "a" else if n = 3 then "b" else ""
    dParent := fun n => if n = 2 then 3 else if n = 3 then 1 else n }

/-- Snapshot for the C4 counterexample: like `sC1`, plus a descriptor array
at address 70 whose only slot holds file 50 (the file whose path
resolution raises). -/
def sC4 : Snapshot :=
  { baseSnap with
    fileDentry := fun f => if f = 50 then some 2 else none
    dOp := fun n => if n = 2 then some 30 else none
    dDname := fun n => if n = 30 then some 40 else none
    getSymbolsByLocation := fun a _ =>
      if a = 40 then ["t!sockfs_dname"] else []
    slotAt := fun b i => if b = 70 ∧ i = 0 then 50 else 0 }

/-- Task for the C4 counterexample: descriptor table at 70 with one slot. -/
def taskC4 : TaskStruct := ⟨1, 1, 70, 1⟩

/-- Snapshot for the C4 witness: a 10-slot descriptor array at address 80
with non-null entries at indices 1, 4 and 7; every `get_dentry` read
raises, so each non-null entry resolves to the caught-and-degraded `""`
path. -/
def sC4w : Snapshot :=
  { baseSnap with
    slotAt := fun b i =>
      if b = 80 then
        if i = 1 then 11 else if i = 4 then 12 else if i = 7 then 13 else 0
      else 0 }

/-- Task for the C4 witness: descriptor table at 80, 10 declared slots. -/
def taskC4w : TaskStruct := ⟨1, 1, 80, 10⟩

/-- Snapshot for the C5 counterexample: the walk collects the single
segment `socket:1234` (no `]`), and dentry 2's inode number is 99. -/
def sC5 : Snapshot :=
  { baseSnap with
    dName := fun n => if n = 2 then "socket:1234" else ""
    dInode := fun n => if n = 2 then some 99 else none
    mntRoot := fun m => if m = 5 then 2 else 0 }

/-- Snapshot for the C5 witness: the collected segment `pipe:x]/y`
contains a `]`, so post-processing strips every `/`. -/
def sC5w : Snapshot :=
  { baseSnap with
    dName := fun n => if n = 2 then "pipe:x]/y" else ""
    dInode := fun n => if n = 2 then some 99 else none
    mntRoot := fun m => if m = 5 then 2 else 0 }

/-- Snapshot for C6: dentry 2 (named `foo`) has parent 3 whose name read
yields the empty string, below root dentry 1. -/
def sC6 : Snapshot :=
  { baseSnap with
    dName := fun n => if n = 2 then "foo" else ""
    dParent := fun n => if n = 2 then 3 else n }

/-- Snapshot for C7: dentry 2's name is the literal `/` (which strips to an
empty segment), and dentry 2 is the root of mount 10, a global mount root. -/
def sC7 : Snapshot :=
  { baseSnap with
    dName := fun n => if n = 2 then "/" else ""
    mntRoot := fun m => if m = 10 then 2 else 0 }

/-- Snapshot for C8: file 60 on mount 5 has dentry 2 (named `a`, parent is
the root dentry 1, inode 7) whose `d_dname` pointer (40) resolves to
exactly `simple_dname`. -/
def sC8 : Snapshot :=
  { baseSnap with
    dName := fun n => if n = 2 then "a" else ""
    dParent := fun n => if n = 2 then 1 else n
    dInode := fun n => if n = 2 then some 7 else none
    dOp := fun n => if n = 2 then some 30 else none
    dDname := fun n => if n = 30 then some 40 else none
    fileDentry := fun f => if f = 60 then some 2 else none
    fileMnt := fun f => if f = 60 then 5 else 0
    getSymbolsByLocation := fun a _ =>
      if a = 40 then ["t!simple_dname"] else [] }

/-- Task for C8: the process root pair is dentry 1 on mount 5. -/
def taskC8 : TaskStruct := ⟨1, 5, 0, 0⟩

/-- Snapshot for the C9 witness: file 50's dentry 2 has a readable
`d_op.d_dname` pointer (40), but the symbol query finds nothing there. -/
def sC9 : Snapshot :=
  { baseSnap with
    fileDentry := fun f => if f = 50 then some 2 else none
    dOp := fun n => if n = 2 then some 30 else none
    dDname := fun n => if n = 30 then some 40 else none }

/-- Snapshot for C10: the walk starts at dentry 2 (named `foo`, inode 22),
ascends to its parent 4 (named `socket:`), and exits at the root dentry 1
(inode 11). -/
def sC10 : Snapshot :=
  { baseSnap with
    dName := fun n => if n = 2 then "foo" else if n = 4 then "socket:" else ""
    dParent := fun n => if n = 2 then 4 else if n = 4 then 1 else n
    dInode := fun n => if n = 1 then some 11 else if n = 2 then some 22 else none }

/-! ## Theorems -/

/-- One loop iteration that exits because the current pair equals the root
pair, returning the collected segments unchanged. -/
lemma walkLoop_exit (s : Snapshot) (rdentry rmnt fuel dentry vfsmnt : Nat)
    (acc : List String) (h : dentry = rdentry ∧ vfsmnt = rmnt) :
    walkLoop s rdentry rmnt (fuel + 1) dentry vfsmnt acc = .ok (acc, dentry) := by
  simp only [walkLoop]
  rw [if_pos h]

/-- One loop iteration that stops on an empty dentry name, returning the
segments collected so far. -/
lemma walkLoop_empty_name (s : Snapshot) (rdentry rmnt fuel dentry vfsmnt : Nat)
    (acc : List String) (h1 : ¬ (dentry = rdentry ∧ vfsmnt = rmnt))
    (h2 : s.dName dentry = "") :
    walkLoop s rdentry rmnt (fuel + 1) dentry vfsmnt acc = .ok (acc, dentry) := by
  simp only [walkLoop]
  rw [if_neg h1, if_pos h2]

/-- One loop iteration that ascends to the parent dentry. -/
lemma walkLoop_ascend (s : Snapshot) (rdentry rmnt fuel dentry vfsmnt : Nat)
    (acc : List String) (h1 : ¬ (dentry = rdentry ∧ vfsmnt = rmnt))
    (h2 : s.dName dentry ≠ "")
    (h3 : ¬ (dentry = s.mntRoot vfsmnt ∨ dentry = s.dParent dentry)) :
    walkLoop s rdentry rmnt (fuel + 1) dentry vfsmnt acc =
      walkLoop s rdentry rmnt fuel (s.dParent dentry) vfsmnt
        (pyStrip (s.dName dentry) '/' :: acc) := by
  simp only [walkLoop]
  rw [if_neg h1, if_neg h2, if_neg h3]

/-- Claim C1 (refuted): `path_for_file` is claimed never to let an
invalid-reference failure escape, but on a file whose dentry has a valid
`d_dname` pointer resolving to `sockfs_dname` while its `d_inode` read
raises, the unguarded `dentry.d_inode.i_ino` read on line 131 of
`_get_new_sock_pipe_path` propagates `InvalidAddressException` out of
`path_for_file`. -/
theorem C1_path_for_file_raises :
    path_for_file sC1 1 task0 50 = .error .invalidAddress := rfl

/-- The two cyclic states of the corrupted mount graph `sC2` step into one
another, so the walk loop exhausts any amount of fuel. -/
lemma sC2_walk_diverges : ∀ fuel acc,
    walkLoop sC2 1 1 fuel 2 2 acc = .error .fuelOut ∧
    walkLoop sC2 1 1 fuel 2 3 acc = .error .fuelOut := by
  intro fuel
  induction fuel with
  | zero => exact fun _ => ⟨rfl, rfl⟩
  | succ f ih =>
    intro acc
    have step1 : walkLoop sC2 1 1 (f + 1) 2 2 acc =
        walkLoop sC2 1 1 f 2 3 ("x" :: acc) := rfl
    have step2 : walkLoop sC2 1 1 (f + 1) 2 3 acc =
        walkLoop sC2 1 1 f 2 2 ("x" :: acc) := rfl
    exact ⟨step1.trans (ih ("x" :: acc)).2, step2.trans (ih ("x" :: acc)).1⟩

/-- Claim C2 (refuted, code bug): the spec requires the path walk to be
bounded by a defensive iteration cap with cap exhaustion returning `""`,
but `_do_get_path` has no cap: on the cyclic dentry/mount graph `sC2` the
loop never exits, exhausting every fuel bound instead of terminating. -/
theorem C2_walk_unbounded :
    (∀ fuel acc, walkLoop sC2 1 1 fuel 2 2 acc = .error .fuelOut) ∧
    (∀ fuel, _do_get_path sC2 fuel 1 1 2 2 = .error .fuelOut) := by
  refine ⟨fun fuel acc => (sC2_walk_diverges fuel acc).1, fun fuel => ?_⟩
  unfold _do_get_path
  rw [(sC2_walk_diverges fuel []).1]
  rfl

/-- Counterexample to claim C5: the joined value `socket:1234` contains no
`]`, yet the code produces `socket:123:[99]` — Python's `ret_val[:-1]`
drops the last character unconditionally, not a "trailing separator" — and
not the claimed `socket:[99]`. -/
theorem C5_counterexample :
    _do_get_path sC5 2 1 5 2 5 = .ok "socket:123:[99]" ∧
    _do_get_path sC5 2 1 5 2 5 ≠ .ok "socket:[99]" := by
  have h1 : _do_get_path sC5 2 1 5 2 5 = .ok "socket:123:[99]" := rfl
  refine ⟨h1, fun h2 => ?_⟩
  have h3 : ("socket:123:[99]" : String) = "socket:[99]" :=
    Except.ok.inj (h1.symm.trans h2)
  exact absurd h3 (by decide)

/-- Claim C5 as amended: when the joined value starts with `socket:` or
`pipe:`, post-processing drops its last character (whatever it is) and
appends `:[N]` with `N` the inode of the dentry at loop exit (0 if the
read raises) when the value has no `]`; when it has a `]`, every `/` is
removed. -/
theorem C5_amended (s : Snapshot) (fuel rdentry rmnt dentry vfsmnt d2 : Nat)
    (acc : List String) (rv : String)
    (hwalk : walkLoop s rdentry rmnt fuel dentry vfsmnt [] = .ok (acc, d2))
    (hne : acc ≠ [])
    (hrv : rv = String.intercalate "/" (acc.filter (fun p => p ≠ "")))
    (hpre : strStartsWith rv "socket:" ∨ strStartsWith rv "pipe:") :
    (¬ strContains rv ']' →
      _do_get_path s fuel rdentry rmnt dentry vfsmnt =
        .ok (pyDropLast rv ++ ":[" ++ toString ((s.dInode d2).getD 0) ++ "]")) ∧
    (strContains rv ']' →
      _do_get_path s fuel rdentry rmnt dentry vfsmnt =
        .ok (String.mk (rv.data.filter (fun c => c ≠ '/')))) := by
  unfold _do_get_path
  rw [hwalk]
  have hpost : postProcess s acc d2 =
      if strStartsWith rv "socket:" ∨ strStartsWith rv "pipe:" then
        if ¬ strContains rv ']' then
          pyDropLast rv ++ ":[" ++ toString ((s.dInode d2).getD 0) ++ "]"
        else String.mk (rv.data.filter (fun c => c ≠ '/'))
      else if rv = "inotify" then rv else "/" ++ rv := by
    simp only [postProcess]
    rw [if_neg hne, ← hrv]
  constructor
  · intro hnc
    show Except.ok (postProcess s acc d2) = _
    rw [hpost, if_pos hpre, if_pos hnc]
  · intro hc
    show Except.ok (postProcess s acc d2) = _
    rw [hpost, if_pos hpre, if_neg (by simpa using hc)]

/-- Witness for C5 (amended), `]` branch: the single collected segment
`pipe:x]/y` contains `]`, so the result is the segment with `/` removed. -/
theorem C5_amended_witness :
    _do_get_path sC5w 2 1 5 2 5 = .ok "pipe:x]y" :=
  (C5_amended sC5w 2 1 5 2 5 2 ["pipe:x]/y"] "pipe:x]/y" rfl (by decide) rfl
    (Or.inr (by decide))).2 (by decide)

/-- Counterexample to claim C6: the walk hits the empty name of dentry 3
only after collecting the segment `foo`, and it returns the partial path
`/foo` — the already-collected segments are not discarded and the result
is not `""`. -/
theorem C6_counterexample :
    sC6.dName 3 = "" ∧
    walkLoop sC6 1 7 2 2 7 [] = .ok (["foo"], 3) ∧
    _do_get_path sC6 2 1 7 2 7 = .ok "/foo" ∧
    _do_get_path sC6 2 1 7 2 7 ≠ .ok "" := by
  have h1 : _do_get_path sC6 2 1 7 2 7 = .ok "/foo" := rfl
  refine ⟨rfl, rfl, h1, fun h2 => ?_⟩
  exact absurd (Except.ok.inj (h1.symm.trans h2)) (by decide)

/-- Claim C6 as amended: only when the very first name read of the walk
yields the empty string (so nothing has been collected) does the walk
return `""`; an empty name later in the walk keeps the collected suffix. -/
theorem C6_amended (s : Snapshot) (fuel rdentry rmnt dentry vfsmnt : Nat)
    (hfuel : 0 < fuel) (hroot : ¬ (dentry = rdentry ∧ vfsmnt = rmnt))
    (hname : s.dName dentry = "") :
    _do_get_path s fuel rdentry rmnt dentry vfsmnt = .ok "" := by
  obtain ⟨f, rfl⟩ : ∃ f, fuel = f + 1 :=
    ⟨fuel - 1, (Nat.succ_pred_eq_of_pos hfuel).symm⟩
  unfold _do_get_path
  rw [walkLoop_empty_name s rdentry rmnt f dentry vfsmnt [] hroot hname]
  rfl

/-- Witness for C6 (amended): starting the walk directly at the dentry with
the empty name yields `""`. -/
theorem C6_amended_witness : _do_get_path sC6 1 1 7 3 7 = .ok "" :=
  C6_amended sC6 1 1 7 3 7 (by decide) (by decide) rfl

/-- Counterexample to claim C7: the walk does return the one-character
string `/` on some input — dentry 2's non-empty name `/` strips to an
empty segment, the joined value is empty, and the final `'/' + ret_val`
step produces exactly `"/"`. -/
theorem C7_counterexample : _do_get_path sC7 1 1 10 2 10 = .ok "/" := rfl

/-- Claim C7 as amended: whenever the loop exits having collected no
segments — in particular when the start pair already equals the root pair,
which exits after zero iterations — the result is `""`. -/
theorem C7_amended (s : Snapshot) (fuel rdentry rmnt dentry vfsmnt d2 : Nat)
    (hwalk : walkLoop s rdentry rmnt fuel dentry vfsmnt [] = .ok ([], d2)) :
    _do_get_path s fuel rdentry rmnt dentry vfsmnt = .ok "" := by
  unfold _do_get_path
  rw [hwalk]
  rfl

/-- Witness for C7 (amended): a walk whose start pair equals the root pair
collects nothing and yields `""`. -/
theorem C7_amended_witness : _do_get_path sC7 1 1 10 1 10 = .ok "" :=
  C7_amended sC7 1 1 10 1 10 1 rfl

/-- Claim C10 (confirmed): the inode number appended to a `socket:`/`pipe:`
prefixed value is read from the dentry at loop exit.  Here the walk starts
at dentry 2 (inode 22) but exits at the root dentry 1 (inode 11) after
ascending twice, and the appended number is 11, not 22. -/
theorem C10_exit_dentry_inode :
    walkLoop sC10 1 9 3 2 9 [] = .ok (["socket:", "foo"], 1) ∧
    sC10.dInode 1 = some 11 ∧ sC10.dInode 2 = some 22 ∧
    _do_get_path sC10 3 1 9 2 9 = .ok "socket:/fo:[11]" ∧
    _do_get_path sC10 3 1 9 2 9 ≠ .ok "socket:/fo:[22]" := by
  have h1 : _do_get_path sC10 3 1 9 2 9 = .ok "socket:/fo:[11]" := rfl
  refine ⟨rfl, rfl, rfl, h1, fun h2 => ?_⟩
  exact absurd (Except.ok.inj (h1.symm.trans h2)) (by decide)

/-- Counterexample to claim C8: when the `d_dname` pointer resolves to
exactly `simple_dname`, the resolver does call the real-path walk, but then
appends `:[inode]` to its result (line 131 formats every recognized-symbol
branch), so its result `/a:[7]` differs from the walk's result `/a` for the
same file. -/
theorem C8_counterexample :
    _get_new_sock_pipe_path sC8 2 taskC8 60 = .ok "/a:[7]" ∧
    _get_path_file sC8 2 taskC8 60 = .ok "/a" ∧
    _get_new_sock_pipe_path sC8 2 taskC8 60 ≠ _get_path_file sC8 2 taskC8 60 := by
  have h1 : _get_new_sock_pipe_path sC8 2 taskC8 60 = .ok "/a:[7]" := rfl
  have h2 : _get_path_file sC8 2 taskC8 60 = .ok "/a" := rfl
  refine ⟨h1, h2, fun h3 => ?_⟩
  exact absurd (Except.ok.inj ((h1.symm.trans h3).trans h2)) (by decide)

/-- Claim C8 as amended: in the `simple_dname` case the resolver delegates
to the real-path walk for the prefix and returns the walk's result with
`:[inode]` appended. -/
theorem C8_amended (s : Snapshot) (fuel : Nat) (task : TaskStruct)
    (filp dentry d_op sym_addr ino : Nat) (w : String) (symbs : List String)
    (h1 : s.fileDentry filp = some dentry) (h2 : s.dOp dentry = some d_op)
    (h3 : s.dDname d_op = some sym_addr)
    (h4 : s.getSymbolsByLocation sym_addr
      (if (splitOnChar s.dDnameTypeName '!').length = 2
       then (splitOnChar s.dDnameTypeName '!').head? else none) = symbs)
    (h5 : symbs.length = 1)
    (h6 : (splitOnChar (symbs.headD "") '!').get? 1 = some "simple_dname")
    (h7 : _get_path_file s fuel task filp = .ok w)
    (h8 : s.dInode dentry = some ino) :
    _get_new_sock_pipe_path s fuel task filp =
      .ok (w ++ ":[" ++ toString ino ++ "]") := by
  unfold _get_new_sock_pipe_path
  simp only [h1, h2, h3, h4, if_pos h5, h6, h7, h8]
  rw [if_neg (by decide : ¬ ("simple_dname" : String) = "sockfs_dname"),
    if_neg (by decide : ¬ ("simple_dname" : String) = "anon_inodefs_dname"),
    if_neg (by decide : ¬ ("simple_dname" : String) = "pipefs_dname")]
  simp

/-- Witness for C8 (amended): the concrete `simple_dname` file resolves to
the walk result `/a` with `:[7]` appended. -/
theorem C8_amended_witness :
    _get_new_sock_pipe_path sC8 2 taskC8 60 = .ok "/a:[7]" :=
  C8_amended sC8 2 taskC8 60 2 30 40 7 "/a" ["t!simple_dname"]
    rfl rfl rfl rfl rfl rfl rfl rfl

/-- Claim C9 (confirmed): whenever the symbol query for a readable
`d_dname` pointer returns zero or more than one name, the resolver returns
the diagnostic placeholder containing the raw address in hexadecimal
instead of raising. -/
theorem C9_invalid_pointer (s : Snapshot) (fuel : Nat) (task : TaskStruct)
    (filp dentry d_op sym_addr : Nat)
    (h1 : s.fileDentry filp = some dentry) (h2 : s.dOp dentry = some d_op)
    (h3 : s.dDname d_op = some sym_addr)
    (h4 : (s.getSymbolsByLocation sym_addr
      (if (splitOnChar s.dDnameTypeName '!').length = 2
       then (splitOnChar s.dDnameTypeName '!').head? else none)).length ≠ 1) :
    _get_new_sock_pipe_path s fuel task filp =
      .ok ("<invalid d_dname pointer> " ++ natToHex sym_addr) := by
  unfold _get_new_sock_pipe_path
  simp only [h1, h2, h3, if_neg h4]

/-- Witness for C9: a pointer mapping to zero symbols yields the
placeholder with the literal address (40 = 0x28). -/
theorem C9_invalid_pointer_witness :
    _get_new_sock_pipe_path sC9 1 task0 50 =
      .ok "<invalid d_dname pointer> 28" :=
  C9_invalid_pointer sC9 1 task0 50 2 30 40 rfl rfl rfl (by decide)

/-- Along a straight chain the walk loop visits exactly the chain, strips
each name, and exits at the root dentry with the names prepended in
root-to-leaf order. -/
lemma walkLoop_straightChain (s : Snapshot) (rdentry rmnt : Nat) :
    ∀ (ds : List Nat) (d : Nat) (acc : List String) (fuel : Nat),
    straightChain s rdentry rmnt d ds → ds.length < fuel →
    walkLoop s rdentry rmnt fuel d rmnt acc =
      .ok ((ds.map (fun e => pyStrip (s.dName e) '/')).reverse ++ acc, rdentry) := by
  intro ds
  induction ds with
  | nil =>
    intro d acc fuel hc hf
    have hd : d = rdentry := hc
    obtain ⟨f, rfl⟩ : ∃ f, fuel = f + 1 :=
      ⟨fuel - 1, (Nat.succ_pred_eq_of_pos hf).symm⟩
    subst hd
    rw [walkLoop_exit s d rmnt f d rmnt acc ⟨rfl, rfl⟩]
    simp
  | cons e rest ih =>
    intro d acc fuel hc hf
    obtain ⟨rfl, hne, hname, hroot, hpar, hrest⟩ :
        d = e ∧ d ≠ rdentry ∧ s.dName d ≠ "" ∧ d ≠ s.mntRoot rmnt ∧
        d ≠ s.dParent d ∧ straightChain s rdentry rmnt (s.dParent d) rest := hc
    obtain ⟨f, rfl⟩ : ∃ f, fuel = f + 1 :=
      ⟨fuel - 1, (Nat.succ_pred_eq_of_pos (Nat.lt_of_le_of_lt (Nat.zero_le _) hf)).symm⟩
    rw [walkLoop_ascend s rdentry rmnt f d rmnt acc
      (fun h => hne h.1) hname (fun h => h.elim hroot hpar)]
    rw [ih (s.dParent d) (pyStrip (s.dName d) '/' :: acc) f hrest
      (Nat.lt_of_succ_lt_succ hf)]
    simp

/-- Every dentry on a straight chain has a non-empty name. -/
lemma straightChain_names_ne (s : Snapshot) (rdentry rmnt : Nat) :
    ∀ (ds : List Nat) (d : Nat), straightChain s rdentry rmnt d ds →
    ∀ e ∈ ds, s.dName e ≠ "" := by
  intro ds
  induction ds with
  | nil => intro d _ e he; exact absurd he (List.not_mem_nil e)
  | cons a rest ih =>
    intro d hc e he
    obtain ⟨rfl, _, hname, _, _, hrest⟩ :
        d = a ∧ d ≠ rdentry ∧ s.dName d ≠ "" ∧ d ≠ s.mntRoot rmnt ∧
        d ≠ s.dParent d ∧ straightChain s rdentry rmnt (s.dParent d) rest := hc
    rcases List.mem_cons.mp he with rfl | he'
    · exact hname
    · exact ih (s.dParent d) hrest e he'

/-- Counterexample to claim C3: the chain `[2]` below root dentry 1 is
well-formed, depth 1, with the single non-empty (trivially distinct) name
`/inotify` and no mount crossing, yet the walk returns `inotify` — the
name is stripped of its slashes and the `inotify` special case suppresses
the leading `/` — not the claimed `/`-prefixed join `//inotify`. -/
theorem C3_counterexample :
    straightChain sC3 1 4 2 [2] ∧ sC3.dName 2 ≠ "" ∧
    _do_get_path sC3 2 1 4 2 4 = .ok "inotify" ∧
    _do_get_path sC3 2 1 4 2 4 ≠
      .ok ("/" ++ String.intercalate "/" [sC3.dName 2]) := by
  have h1 : _do_get_path sC3 2 1 4 2 4 = .ok "inotify" := rfl
  refine ⟨by decide, by decide, h1, fun h2 => ?_⟩
  have h3 : ("inotify" : String) = "/" ++ String.intercalate "/" [sC3.dName 2] :=
    Except.ok.inj (h1.symm.trans h2)
  exact absurd h3 (by decide)

/-- Claim C3 as amended: for a straight chain of depth N with distinct
names, where each name is unchanged by slash-stripping and the joined
value neither starts with `socket:`/`pipe:` nor equals `inotify`, the walk
returns `/` followed by the names joined with `/` in root-to-leaf order. -/
theorem C3_amended (s : Snapshot) (rdentry rmnt dentry fuel : Nat)
    (ds : List Nat)
    (hchain : straightChain s rdentry rmnt dentry ds)
    (hne : ds ≠ [])
    (hfuel : ds.length < fuel)
    (_hnodup : ((ds.map s.dName).reverse).Nodup)
    (hstrip : ∀ e ∈ ds, pyStrip (s.dName e) '/' = s.dName e)
    (hsock : ¬ strStartsWith
      (String.intercalate "/" (ds.map s.dName).reverse) "socket:")
    (hpipe : ¬ strStartsWith
      (String.intercalate "/" (ds.map s.dName).reverse) "pipe:")
    (hinot : String.intercalate "/" (ds.map s.dName).reverse ≠ "inotify") :
    _do_get_path s fuel rdentry rmnt dentry rmnt =
      .ok ("/" ++ String.intercalate "/" (ds.map s.dName).reverse) := by
  have hmap : ds.map (fun e => pyStrip (s.dName e) '/') = ds.map s.dName :=
    List.map_congr_left hstrip
  unfold _do_get_path
  rw [walkLoop_straightChain s rdentry rmnt ds dentry [] fuel hchain hfuel, hmap]
  have hflt : ((ds.map s.dName).reverse).filter (fun p => p ≠ "") =
      (ds.map s.dName).reverse := by
    rw [List.filter_eq_self]
    intro a ha
    rcases List.mem_map.mp (List.mem_reverse.mp ha) with ⟨e, he, rfl⟩
    simpa using straightChain_names_ne s rdentry rmnt ds dentry hchain e he
  have hnil : (ds.map s.dName).reverse ++ [] ≠ [] := by
    simpa using hne
  show Except.ok (postProcess s ((ds.map s.dName).reverse ++ []) rdentry) = _
  rw [List.append_nil]
  unfold postProcess
  rw [if_neg (by simpa using hne)]
  simp only [hflt]
  rw [if_neg (fun h => h.elim hsock hpipe), if_neg hinot]

/-- Witness for C3 (amended): the chain 2 → 3 → 1 with names `a`, `b`
yields `/b/a`. -/
theorem C3_amended_witness : _do_get_path sC3w 3 1 4 2 4 = .ok "/b/a" := by
  have h := C3_amended sC3w 1 4 2 3 [2, 3] (by decide) (by decide) (by decide)
    (by decide) (by decide) (by decide) (by decide) (by decide)
  simpa using h

/-- Counterexample to claim C4: the descriptor table at 70 is non-null with
an admissible declared maximum and one non-null slot, yet the enumeration
yields no triple for it — the per-slot `path_for_file` call raises (the C1
failure) and aborts the generator instead of producing the slot's entry. -/
theorem C4_counterexample :
    taskC4.fdTable ≠ 0 ∧ taskC4.maxFds ≤ 500000 ∧
    sC4.slotAt taskC4.fdTable 0 ≠ 0 ∧
    files_descriptors_for_process sC4 1 taskC4 = .error .invalidAddress := by
  exact ⟨by decide, by decide, by decide, rfl⟩

/-- If every non-null slot's path resolves without an escaping exception,
the generator body yields exactly one triple per non-null slot, in order,
with the facade's path. -/
lemma yieldLoop_ok (s : Snapshot) (fuel : Nat) (task : TaskStruct) :
    ∀ ps : List (Nat × Nat),
    (∀ p ∈ ps, p.2 ≠ 0 → ∃ q, path_for_file s fuel task p.2 = .ok q) →
    ∃ l, yieldLoop s fuel task ps = .ok l ∧
      l.map (fun t => (t.1, t.2.1)) = ps.filter (fun p => p.2 ≠ 0) ∧
      ∀ t ∈ l, path_for_file s fuel task t.2.1 = .ok t.2.2 := by
  intro ps
  induction ps with
  | nil => exact fun _ => ⟨[], rfl, rfl, by simp⟩
  | cons p rest ih =>
    intro h
    obtain ⟨fd_num, filp⟩ := p
    obtain ⟨l, hl, hmap, hall⟩ :=
      ih (fun p hp => h p (List.mem_cons_of_mem _ hp))
    by_cases hz : filp = 0
    · subst hz
      refine ⟨l, ?_, ?_, hall⟩
      · simpa [yieldLoop] using hl
      · simpa [List.filter_cons] using hmap
    · obtain ⟨q, hq⟩ := h (fd_num, filp) (List.mem_cons_self _ _) hz
      refine ⟨(fd_num, filp, q) :: l, ?_, ?_, ?_⟩
      · simp [yieldLoop, hz, hq, hl, Except.map]
      · simpa [List.filter_cons, hz] using hmap
      · intro t ht
        rcases List.mem_cons.mp ht with rfl | ht'
        · exact hq
        · exact hall t ht'

/-- Claim C4 as amended: the enumeration is empty for a null table address
or a declared maximum above 500000; otherwise — provided each non-null
slot's path resolution returns without an escaping invalid-reference
failure (not guaranteed, see the C4 counterexample) — it yields exactly
one (index, file, path) triple per non-null slot, in ascending descriptor
order, with null slots silently omitted. -/
theorem C4_amended :
    (∀ (s : Snapshot) (fuel : Nat) (task : TaskStruct), task.fdTable = 0 →
      files_descriptors_for_process s fuel task = .ok []) ∧
    (∀ (s : Snapshot) (fuel : Nat) (task : TaskStruct), 500000 < task.maxFds →
      files_descriptors_for_process s fuel task = .ok []) ∧
    (∀ (s : Snapshot) (fuel : Nat) (task : TaskStruct),
      task.fdTable ≠ 0 → task.maxFds ≤ 500000 →
      (∀ p ∈ ((List.range task.maxFds).map (s.slotAt task.fdTable)).enum,
        p.2 ≠ 0 → ∃ q, path_for_file s fuel task p.2 = .ok q) →
      ∃ l, files_descriptors_for_process s fuel task = .ok l ∧
        l.map (fun t => (t.1, t.2.1)) =
          ((List.range task.maxFds).map (s.slotAt task.fdTable)).enum.filter
            (fun p => p.2 ≠ 0) ∧
        ∀ t ∈ l, path_for_file s fuel task t.2.1 = .ok t.2.2) := by
  refine ⟨fun s fuel task h => ?_, fun s fuel task h => ?_, fun s fuel task h1 h2 h3 => ?_⟩
  · unfold files_descriptors_for_process
    rw [if_pos h]
  · unfold files_descriptors_for_process
    by_cases h0 : task.fdTable = 0
    · rw [if_pos h0]
    · rw [if_neg h0, if_pos h]
  · obtain ⟨l, hl, hmap, hall⟩ := yieldLoop_ok s fuel task
      ((List.range task.maxFds).map (s.slotAt task.fdTable)).enum h3
    refine ⟨l, ?_, hmap, hall⟩
    unfold files_descriptors_for_process
    rw [if_neg h1, if_neg (Nat.not_lt.mpr h2)]
    exact hl

/-- Witness for C4 (amended): all three parts at concrete inputs — a null
table, an over-threshold maximum, and the spec's 10-slot table with
3 non-null entries yielding exactly 3 triples in ascending index order. -/
theorem C4_amended_witness :
    files_descriptors_for_process sC4w 1 ⟨1, 1, 0, 10⟩ = .ok [] ∧
    files_descriptors_for_process sC4w 1 ⟨1, 1, 80, 500001⟩ = .ok [] ∧
    ∃ l, files_descriptors_for_process sC4w 1 taskC4w = .ok l ∧
      l.map (fun t => (t.1, t.2.1)) = [(1, 11), (4, 12), (7, 13)] ∧
      ∀ t ∈ l, path_for_file sC4w 1 taskC4w t.2.1 = .ok t.2.2 := by
  refine ⟨C4_amended.1 sC4w 1 ⟨1, 1, 0, 10⟩ rfl,
    C4_amended.2.1 sC4w 1 ⟨1, 1, 80, 500001⟩ (by decide), ?_⟩
  obtain ⟨l, h1, h2, h3⟩ := C4_amended.2.2 sC4w 1 taskC4w (by decide) (by decide)
    (fun p _ _ => ⟨"", rfl⟩)
  exact ⟨l, h1, by rw [h2]; rfl, h3⟩

end Volatility
